import Mathlib

/-!
# Verification of datashuttle's name expansion and folder planning

Shallow embedding of the core of the `datashuttle` repository:

* `datashuttle/utils/formatting.py` — subject/session name formatting,
  `@TO@` range expansion, `@DATE@`/`@DATETIME@`/`@TIME@` substitution;
* `datashuttle/utils/folders.py` — duplicate-key checking, folder-tree
  creation, wildcard search, next-number suggestion;
* `datashuttle/datashuttle.py` — the `make_sub_folders` pipeline and
  `_transfer_entire_project`.

Python strings are embedded as `List Char` (named `Str`), so that every
operation is a structural recursion the kernel can evaluate.  Machine
integers do not occur (Python's integers are unbounded, as is `Nat`).
Functions that can raise are embedded as `Except DsError _`; a raised
exception aborts the whole call exactly as the `Except` monad
short-circuits.  Wall-clock date and time are passed in as parameters.
-/

namespace Datashuttle

/-- Embedded Python string: a list of characters. -/
abbrev Str := List Char

/-- The exceptions the embedded code can raise.  The first block are the
errors raised through `utils.raise_error` / `utils.log_and_raise_error`;
`valueError` stands for Python's built-in `ValueError` (e.g. unpacking a
`split` result of length ≠ 2 into two variables) and `assertionError` for a
failed `assert` statement. -/
inductive DsError where
  | invalidNameFormat
  | duplicateName
  | invalidRangeFormat
  | toTagNotBetweenNumbers
  | invalidRange
  | duplicateKey
  | unknownDataType
  | noExistingFolders
  | valueError
  | assertionError
  deriving DecidableEq, Repr

instance {ε α : Type} [DecidableEq ε] [DecidableEq α] :
    DecidableEq (Except ε α) := fun
  | .ok a, .ok b =>
    if h : a = b then .isTrue (by rw [h]) else .isFalse (by simp [h])
  | .ok _, .error _ => .isFalse (by simp)
  | .error _, .ok _ => .isFalse (by simp)
  | .error e, .error e' =>
    if h : e = e' then .isTrue (by rw [h]) else .isFalse (by simp [h])

/-! ## Basic string machinery (Python `str` operations on `List Char`) -/

/-- Python prefix test: `listIsPre p s` holds when `p` is a leading
substring of `s` (Python `s[:len(p)] == p`). -/
def listIsPre : Str → Str → Bool
  | [], _ => true
  | _ :: _, [] => false
  | a :: as, b :: bs => a == b && listIsPre as bs

/-- Python substring test: `containsSub s pat` holds when `pat` occurs as a
contiguous substring of `s` (Python `pat in s`). -/
def containsSub (s pat : Str) : Bool :=
  match s with
  | [] => pat.isEmpty
  | _ :: cs => listIsPre pat s || containsSub cs pat

/-- First index at which `pat` occurs in `s` (Python `s.index(pat)`);
returns `s.length` when absent (the embedded code only calls this under a
`pat in s` guard, where Python's `index` cannot raise). -/
def indexOfSub (s pat : Str) : Nat :=
  match s with
  | [] => 0
  | _ :: cs => if listIsPre pat s then 0 else indexOfSub cs pat + 1

/-- Fuel-driven worker for `splitOnStr`; structural recursion on the fuel so
that the kernel can evaluate it.  `splitOnFuel sep f s acc` scans `s` left
to right accumulating the current piece in reverse in `acc`. -/
def splitOnFuel (sep : Str) : Nat → Str → Str → List Str
  | _, [], acc => [acc.reverse]
  | 0, s, acc => [acc.reverse ++ s]
  | f + 1, c :: cs, acc =>
    if listIsPre sep (c :: cs) then
      acc.reverse :: splitOnFuel sep f (List.drop (sep.length - 1) cs) []
    else
      splitOnFuel sep f cs (c :: acc)

/-- Python `s.split(sep)` for a non-empty separator: split `s` at every
non-overlapping, leftmost-first occurrence of `sep`.
E.g. `"a_b".split("_") = ["a", "b"]`, `"x".split("x") = ["", ""]`. -/
def splitOnStr (s sep : Str) : List Str :=
  splitOnFuel sep s.length s []

/-- Python `s.replace(pat, rep)` (all non-overlapping occurrences, leftmost
first), for non-empty `pat`. -/
def replaceStr (s pat rep : Str) : Str :=
  List.intercalate rep (splitOnStr s pat)

/-! ## Decimal numbers (Python `int(...)`, `str(...)`, `str.zfill`) -/

/-- Python `int(s)` for a string of decimal digits. -/
def strNat (s : Str) : Nat :=
  s.foldl (fun a c => a * 10 + (c.toNat - 48)) 0

/-- Test that `s` is a non-empty string of decimal digits (what the regex
`[0-9]+` matches in full). -/
def isDigits (s : Str) : Bool :=
  !s.isEmpty && s.all (fun c => '0' ≤ c && c ≤ '9')

/-- Fuel-driven worker for `natRepr`; structural recursion on the fuel so
that the kernel can evaluate it. -/
def natReprFuel : Nat → Nat → Str
  | 0, _ => []
  | f + 1, n =>
    if n < 10 then [Char.ofNat (48 + n)]
    else natReprFuel f (n / 10) ++ [Char.ofNat (48 + n % 10)]

/-- Python `str(n)` for a natural number: its decimal representation,
without leading zeros. -/
def natRepr (n : Nat) : Str := natReprFuel (n + 1) n

/-- Python `s.zfill(k)`: left-pad `s` with `'0'` to width `k`; a string
already at least `k` long is returned unchanged (never truncated). -/
def zfill (s : Str) (k : Nat) : Str :=
  if k ≤ s.length then s else List.replicate (k - s.length) '0' ++ s

/-- Embeds `formatting.num_leading_zeros`:
`len(string) - len(str(int(string)))`. -/
def numLeadingZeros (s : Str) : Nat :=
  s.length - (natRepr (strNat s)).length

/-! ## Name formatting (`datashuttle/utils/formatting.py`) -/

/-- Full-match of the regex `[0-9]+@TO@[0-9]+` against `s`, returning the
two digit runs.  (Both digit runs are maximal: in a successful full match
the first `[0-9]+` is followed by `@`, so greediness is irrelevant.) -/
def parseToTagNumber (s : Str) : Option (Str × Str) :=
  let (d1, rest) := s.span (fun c => '0' ≤ c && c ≤ '9')
  if d1.isEmpty then none
  else if listIsPre "@TO@".toList rest then
    let d2 := rest.drop 4
    if isDigits d2 then some (d1, d2) else none
  else none

/-- Embeds `formatting.check_name_is_formatted_correctly` together with the
regex extraction in `update_names_with_range_to_flag`: the first
underscore-delimited segment of `name` must full-match
`{prefix}[0-9]+@TO@[0-9]+`.  Since that segment starts at index 0 and is
followed by `_` or the end of the string, the subsequent
`re.search(f"{prefix}[0-9]+@TO@[0-9]+", name)` returns exactly this
segment, and `prefix_tag.split(prefix)[1]` recovers `d1 ++ "@TO@" ++ d2`
(the prefixes in use, `sub-` and `ses-`, cannot occur inside it).  So the
parse returns the two digit runs, or `none` when the check fails. -/
def parseRangeTag (pre name : Str) : Option (Str × Str) :=
  let firstSeg := (splitOnStr name "_".toList).headD []
  if listIsPre pre firstSeg then
    parseToTagNumber (firstSeg.drop pre.length)
  else none

/-- Embeds `formatting.make_list_of_zero_padded_names_across_range`:
all integers of `range(int(left), int(right) + 1)`, each `zfill`-padded to
`max_leading_zeros + 1` characters, re-wrapped in the start/end text. -/
def makeListOfZeroPaddedNamesAcrossRange
    (leftNumber rightNumber nameStartStr nameEndStr : Str) : List Str :=
  let maxLeadingZeros := max (numLeadingZeros leftNumber) (numLeadingZeros rightNumber)
  let allNumbers := List.range' (strNat leftNumber)
    (strNat rightNumber + 1 - strNat leftNumber)
  allNumbers.map (fun number =>
    nameStartStr ++ zfill (natRepr number) (maxLeadingZeros + 1) ++ nameEndStr)

/-- Embeds `formatting.update_names_with_range_to_flag`: each name
containing `@TO@` is validated (`check_name_is_formatted_correctly`),
split around the `d1@TO@d2` tag text (unpacking raises `ValueError` when
that text occurs more than once in the name), checked for an ascending
range, and expanded; other names pass through unchanged.  The source's
`"@TO@" not in tag_number` guard cannot fire, because the extracted tag
text contains `@TO@` by construction. -/
def updateNamesWithRangeToFlag (names : List Str) (pre : Str) :
    Except DsError (List Str) :=
  names.foldlM (fun newNames name =>
    if containsSub name "@TO@".toList then
      match parseRangeTag pre name with
      | none => .error .invalidRangeFormat
      | some (leftNumber, rightNumber) =>
        let tagNumber := leftNumber ++ "@TO@".toList ++ rightNumber
        match splitOnStr name tagNumber with
        | [nameStartStr, nameEndStr] =>
          if strNat leftNumber ≥ strNat rightNumber then .error .invalidRange
          else .ok (newNames ++
            makeListOfZeroPaddedNamesAcrossRange leftNumber rightNumber
              nameStartStr nameEndStr)
        | _ => .error .valueError
    else .ok (newNames ++ [name])) []

/-- Embeds `formatting.add_underscore_before_after_if_not_there`.  Python's
`string[key_start_idx - 1]` wraps to the last character when the key starts
at index 0; the left-edge insertion asserts that the key occurs exactly
once (`assert len(string_split) == 2`), and the right edge inserts an
underscore when a non-underscore character follows the key. -/
def addUnderscoreBeforeAfterIfNotThere (s key : Str) : Except DsError Str :=
  let keyLen := key.length
  let keyStartIdx := indexOfSub s key
  let leftRes : Except DsError Str :=
    if (if keyStartIdx = 0 then s.getLast? else s.get? (keyStartIdx - 1))
        ≠ some '_' then
      match splitOnStr s key with
      | [a, b] => .ok (a ++ '_' :: (key ++ b))
      | _ => .error .assertionError
    else .ok s
  match leftRes with
  | .error e => .error e
  | .ok s1 =>
    let updatedKeyStartIdx := indexOfSub s1 key
    let keyEndIdx := updatedKeyStartIdx + keyLen
    if keyEndIdx ≠ s1.length ∧ s1.get? keyEndIdx ≠ some '_' then
      .ok (s1.take keyEndIdx ++ '_' :: s1.drop keyEndIdx)
    else .ok s1

/-- Embeds `formatting.update_names_with_datetime`.  The wall-clock values
are passed in as `dateStr` (Python `%Y%m%d`) and `timeStr` (`%H%M%S`).
The branches are tried in the source's `elif` order — `@DATETIME@` first,
else `@DATE@`, else `@TIME@` — and only the first applicable tag is
substituted (all its occurrences, via `str.replace`). -/
def updateNamesWithDatetime (dateStr timeStr : Str) (names : List Str) :
    Except DsError (List Str) :=
  let formatDate := "date-".toList ++ dateStr
  let formatTime := "time-".toList ++ timeStr
  names.mapM (fun name =>
    if containsSub name "@DATETIME@".toList then
      match addUnderscoreBeforeAfterIfNotThere name "@DATETIME@".toList with
      | .error e => .error e
      | .ok n => .ok (replaceStr n "@DATETIME@".toList
          (formatDate ++ '_' :: formatTime))
    else if containsSub name "@DATE@".toList then
      match addUnderscoreBeforeAfterIfNotThere name "@DATE@".toList with
      | .error e => .error e
      | .ok n => .ok (replaceStr n "@DATE@".toList formatDate)
    else if containsSub name "@TIME@".toList then
      match addUnderscoreBeforeAfterIfNotThere name "@TIME@".toList with
      | .error e => .error e
      | .ok n => .ok (replaceStr n "@TIME@".toList formatTime)
    else .ok name)

/-- Embeds `formatting.ensure_prefixes_on_list_of_names`: prepend `pre` to
every name that does not already start with it. -/
def ensurePrefixesOnListOfNames (names : List Str) (pre : Str) : List Str :=
  names.map (fun name => if listIsPre pre name then name else pre ++ name)

/-- Embeds `formatting.format_names`.  The `type(names)` check cannot fire
in this embedding: the input type is fixed to a list of strings (a single
string input is normalised to a one-element list by that same check).
Then: reject names with spaces, prefix, reject exact duplicates
(`len(prefixed_names) != len(set(prefixed_names))`), expand `@TO@` ranges,
substitute date/time tags. -/
def formatNames (names : List Str) (pre dateStr timeStr : Str) :
    Except DsError (List Str) :=
  if names.any (fun n => containsSub n [' ']) then .error .invalidNameFormat
  else
    let prefixedNames := ensurePrefixesOnListOfNames names pre
    if prefixedNames.length ≠ prefixedNames.dedup.length then
      .error .duplicateName
    else
      match updateNamesWithRangeToFlag prefixedNames pre with
      | .error e => .error e
      | .ok ranged => updateNamesWithDatetime dateStr timeStr ranged

/-! ## Folders and search (`datashuttle/utils/folders.py`)

A directory is a `Path`, a list of path components relative to some fixed
root; the filesystem is the list of directories that exist.  The code
under verification creates directories only, so files are not modelled. -/

/-- A filesystem path, as its list of components. -/
abbrev Path := List Str

/-- Glob matching for the patterns the code builds (`*sub-*`, `ses-*`,
wildcard-substituted names): literal characters and `*`, which matches any
(possibly empty) run of characters.  Fuel-driven so the kernel can
evaluate it; `pat.length + s.length + 1` steps always suffice. -/
def globMatchFuel : Nat → Str → Str → Bool
  | 0, p, s => p.isEmpty && s.isEmpty
  | _ + 1, [], s => s.isEmpty
  | f + 1, '*' :: ps, s =>
    globMatchFuel f ps s ||
      (match s with
       | [] => false
       | _ :: cs => globMatchFuel f ('*' :: ps) cs)
  | _ + 1, _ :: _, [] => false
  | f + 1, c :: ps, b :: bs => c == b && globMatchFuel f ps bs

/-- Glob matching (see `globMatchFuel`). -/
def globMatch (pat s : Str) : Bool :=
  globMatchFuel (pat.length + s.length + 1) pat s

/-- Basenames of the entries directly inside directory `dir`.  A real
directory listing has no duplicate entries, hence the `dedup`. -/
def childNames (fs : List Path) (dir : Path) : List Str :=
  (fs.filterMap (fun p =>
    match p.drop dir.length, p.take dir.length == dir with
    | [c], true => some c
    | _, _ => none)).dedup

/-- Embeds `folders.search_for_folders` together with
`folders.search_filesystem_path_for_folders` (the local-filesystem
branch): when the search path does not exist the search returns no
matches (only a message is logged); otherwise the basenames of the
entries directly inside it that match the glob pattern. -/
def searchForFolders (fs : List Path) (searchPath : Path)
    (searchPre : Str) : List Str :=
  if searchPath ∈ fs then
    (childNames fs searchPath).filter (fun c => globMatch searchPre c)
  else []

/-- Embeds `folders.search_sub_or_ses_level` (the folder-name component of
its result): descend into the optional subject and session folders, then
search with the glob string.  The source's guard raising when a session is
passed without a subject is elided: every call embedded here passes
`ses = none`. -/
def searchSubOrSesLevel (fs : List Path) (baseFolder : Path)
    (sub ses : Option Str) (searchStr : Str) : List Str :=
  let base1 := baseFolder ++ (match sub with | some s => [s] | none => [])
  let base2 := base1 ++ (match ses with | some s => [s] | none => [])
  searchForFolders fs base2 searchStr

/-- Modelled from the spec: `utils.get_values_from_bids_formatted_name`
lives in datashuttle/utils/utils.py, which is not among the provided
sources.  Per the spec, a NumericKey is "the integer value extracted from
the leading numeric component of an ExpandedName's first key-value pair
(e.g. `sub-003` → 3)", matched against the given kind prefix; so each name
contributes the integer value of the digit run in its first
underscore-separated `<key>-<digits>` segment, and names without such a
segment contribute nothing.  (The repository's tests show e.g.
`sub-001_id-123` → 1 under key `sub`.) -/
def getValuesFromBidsFormattedName (names : List Str) (key : Str) :
    List Nat :=
  names.filterMap (fun name =>
    (splitOnStr name "_".toList).findSome? (fun seg =>
      if listIsPre (key ++ ['-']) seg then
        let v := seg.drop (key.length + 1)
        if isDigits v then some (strNat v) else none
      else none))

/-- Insert `n` into an ascending list, keeping it ascending. -/
def insertSorted (n : Nat) : List Nat → List Nat
  | [] => [n]
  | m :: t => if n ≤ m then n :: m :: t else m :: insertSorted n t

/-- Ascending sort (models the `sort=True` mode of
`get_values_from_bids_formatted_name`). -/
def sortNats (l : List Nat) : List Nat :=
  l.foldr insertSorted []

/-- Modelled from the spec: `utils.integers_are_consecutive` lives in
datashuttle/utils/utils.py, which is not among the provided sources.  Per
the spec, the next-number resolver warns "if the sorted NumericKey
sequence is not contiguous (gaps present)": a sorted list is consecutive
when each element is one more than its predecessor. -/
def integersAreConsecutive : List Nat → Bool
  | [] => true
  | [_] => true
  | a :: b :: t => b == a + 1 && integersAreConsecutive (b :: t)

/-- Embeds `folders.check_no_duplicate_sub_ses_key_values`.  With no
session names, the proposed subject keys are checked against the keys of
the `*sub-*` folders in the base folder; with session names, only the
session keys are checked, per proposed subject, against the keys of the
`*ses-*` folders inside that subject's folder.  The first collision
raises (`utils.log_and_raise_error`). -/
def checkNoDuplicateSubSesKeyValues (fs : List Path) (baseFolder : Path)
    (newSubNames : List Str) (newSesNames : Option (List Str)) :
    Except DsError Unit :=
  match newSesNames with
  | none =>
    let existingSubValues := getValuesFromBidsFormattedName
      (searchSubOrSesLevel fs baseFolder none none "*sub-*".toList)
      "sub".toList
    if (getValuesFromBidsFormattedName newSubNames "sub".toList).any
        (fun v => existingSubValues.contains v) then
      .error .duplicateKey
    else .ok ()
  | some sesNames =>
    newSubNames.forM (fun sub =>
      let existingSesValues := getValuesFromBidsFormattedName
        (searchSubOrSesLevel fs baseFolder (some sub) none "*ses-*".toList)
        "ses".toList
      if (getValuesFromBidsFormattedName sesNames "ses".toList).any
          (fun v => existingSesValues.contains v) then
        .error .duplicateKey
      else .ok ())

/-- One configurable data-type folder (`folder_class.Folders`): display
name, `used` flag, and fixed tree level (`sub` or `ses`). -/
structure DataTypeFolder where
  name : Str
  used : Bool
  level : Str
  deriving DecidableEq, Repr

/-- The slice of the project configuration the folder planner reads:
the local base folder (`local_path / top_level_folder`, i.e.
`cfg.get_base_folder("local")`) and the data-type folder map
(`cfg.data_type_folders`). -/
structure Configs where
  base : Path
  dataTypeFolders : List (Str × DataTypeFolder)

/-- The `data_type` argument of the folder makers: a single string or a
list of strings. -/
inductive DataType where
  | str (s : Str)
  | list (l : List Str)
  deriving DecidableEq

/-- Requested keys of a `data_type` argument. -/
def DataType.keys : DataType → List Str
  | .str s => [s]
  | .list l => l

/-- Embeds the `data_type not in [[""], ""]` test of
`folders.make_folder_trees`. -/
def dataTypePassed : DataType → Bool
  | .str s => !(s == [])
  | .list l => !(l == [[]])

/-- Modelled from the spec: `Configs.get_data_type_items` lives in
datashuttle/configs/config_class.py, which is not among the provided
sources.  Per the spec's FolderTreePlanner contract — "If `all`, every
DataTypeFolder ...; if an explicit list, only the named DataTypeFolders
are included" — requesting `all` returns every configured data-type item,
otherwise the items whose canonical key was requested. -/
def getDataTypeItems (cfg : Configs) (dataType : DataType) :
    List (Str × DataTypeFolder) :=
  if dataType.keys.contains "all".toList then cfg.dataTypeFolders
  else cfg.dataTypeFolders.filter (fun kv => dataType.keys.contains kv.1)

/-- Modelled from the spec: `formatting.check_data_type_is_valid` is
called by `make_folder_trees` but is not present in the provided
formatting.py.  Per the spec, "requesting an unknown key fails with
UnknownDataType"; `all` is always valid. -/
def checkDataTypeIsValid (cfg : Configs) (dataType : DataType) : Bool :=
  dataType.keys.all (fun k =>
    k == "all".toList || (cfg.dataTypeFolders.map Prod.fst).contains k)

/-- Embeds `folders.make_data_type_folders`: the directories created under
`subOrSesLevelPath` — for each configured data-type item requested, if its
`used` flag is set and its level equals the given level, the data-type
folder followed by its `.datashuttle_meta` folder
(`make_datashuttle_metadata_folder`). -/
def makeDataTypeFolders (cfg : Configs) (dataType : DataType)
    (subOrSesLevelPath : Path) (level : Str) : List Path :=
  (getDataTypeItems cfg dataType).flatMap (fun kv =>
    if kv.2.used && kv.2.level == level then
      [subOrSesLevelPath ++ [kv.2.name],
       subOrSesLevelPath ++ [kv.2.name, ".datashuttle_meta".toList]]
    else [])

/-- Embeds `folders.make_folder_trees`, returning the directories the call
creates, in creation order (`make_folders` performs an idempotent `mkdir`
for each, so this list fully determines the on-disk effect):
for every subject its folder (`cfg.make_path("local", sub)` =
`base / sub`), its subject-level data-type folders, and for every session
the session folder and its session-level data-type folders. -/
def makeFolderTrees (cfg : Configs) (subNames sesNames : List Str)
    (dataType : DataType) : Except DsError (List Path) :=
  if dataTypePassed dataType && !checkDataTypeIsValid cfg dataType then
    .error .unknownDataType
  else
    .ok (subNames.flatMap (fun sub =>
      let subPath := cfg.base ++ [sub]
      [subPath]
        ++ (if dataTypePassed dataType then
              makeDataTypeFolders cfg dataType subPath "sub".toList
            else [])
        ++ sesNames.flatMap (fun ses =>
          let sesPath := cfg.base ++ [sub, ses]
          [sesPath]
            ++ (if dataTypePassed dataType then
                  makeDataTypeFolders cfg dataType sesPath "ses".toList
                else []))))

/-- Embeds `folders.search_for_wildcards`.  The backend search
(`search_sub_or_ses_level` at the subject or session level, over the local
or central store) is abstracted as `searchFn`, applied to the glob pattern
obtained by replacing the wildcard tag with `*`; `canonical_tags.tags("*")`
is the tag `@*@` (canonical_tags.py is not among the provided sources; the
spec's glossary lists the wildcard tag as `@*@`).  Python's final
`list(set(new_all_names))` is modelled as `List.dedup`: a set's iteration
order is implementation-defined, and the theorems below state only
order-independent facts about the result. -/
def searchForWildcards (searchFn : Str → List Str) (allNames : List Str) :
    List Str :=
  (allNames.flatMap (fun name =>
    if containsSub name "@*@".toList then
      searchFn (replaceStr name "@*@".toList "*".toList)
    else [name])).dedup

/-- Embeds `folders.get_next_sub_or_ses_number`.  The two backend searches
(`get_local_and_central_sub_or_ses_names`) are abstracted as the folder
name lists they return; `bidsKey` is `ses` when a subject was passed, else
`sub`.  Python's `list(set(...))` union is modelled as `List.dedup`
(order-independent facts only are proved below); `max` of an empty list
raises `ValueError`.  Returns (warning-emitted, suggested number, latest
existing number). -/
def getNextSubOrSesNumber (localFoldernames centralFoldernames : List Str)
    (bidsKey : Str) : Except DsError (Bool × Nat × Nat) :=
  let allFolders := (localFoldernames ++ centralFoldernames).dedup
  if allFolders.length = 0 then .error .noExistingFolders
  else
    let allValueNums := sortNats
      (getValuesFromBidsFormattedName allFolders bidsKey)
    match allValueNums.max? with
    | none => .error .valueError
    | some latestExistingNum =>
      .ok (!integersAreConsecutive allValueNums,
        latestExistingNum + 1, latestExistingNum)

/-! ## Entry points (`datashuttle/datashuttle.py`) -/

/-- Embeds the effectful core of `DataShuttle.make_sub_folders`: format the
subject names, optionally format the session names, run the duplicate-key
check against the local base folder, then make the folder trees, returning
the directories created.  An exception at any stage aborts the call with
nothing created.  The prefixes: `make_sub_folders` passes the kind
(`sub` / `ses`) to `formatting.check_and_format_names`, which is not in
the provided formatting.py; per the spec ("Prefix every name with
`<kind>-`") and the repository's tests (`"11"` becomes `sub-11`),
formatting is applied with the `<kind>-` prefix.  Logging and display
calls do not affect the result and are omitted. -/
def makeSubFolders (cfg : Configs) (fs : List Path)
    (subNames : List Str) (sesNames : Option (List Str))
    (dataType : DataType) (dateStr timeStr : Str) :
    Except DsError (List Path) := do
  let subs ← formatNames subNames "sub-".toList dateStr timeStr
  let ses? ← match sesNames with
    | none => pure none
    | some l => some <$> formatNames l "ses-".toList dateStr timeStr
  checkNoDuplicateSubSesKeyValues fs cfg.base subs ses?
  makeFolderTrees cfg subs (ses?.getD []) dataType

/-- Modelled from the spec: `canonical_folders.get_top_level_folders`
lives in datashuttle/configs/canonical_folders.py, which is not among the
provided sources; the spec and the docstrings list the canonical top-level
folders as rawdata, derivatives, code and analysis. -/
def getTopLevelFolders : List Str :=
  ["rawdata".toList, "derivatives".toList, "code".toList, "analysis".toList]

/-- The loop of `DataShuttle._transfer_entire_project`: for each top-level
folder, set `cfg.top_level_folder` to it and invoke the transfer; if the
transfer raises, the exception propagates at once, with the selection left
at the failing folder.  Returns the folders whose transfer was attempted,
the final selection, and whether the loop completed normally. -/
def transferLoop (transferAllFunc : Str → Bool) :
    List Str → Str → List Str × Str × Bool
  | [], cur => ([], cur, true)
  | f :: rest, _ =>
    if transferAllFunc f then
      let (attempted, finalTlf, completed) := transferLoop transferAllFunc rest f
      (f :: attempted, finalTlf, completed)
    else ([f], f, false)

/-- Embeds `DataShuttle._transfer_entire_project`.  The per-top-level
transfer (`upload_all` / `download_all`) is abstracted as
`transferAllFunc`, returning whether that folder's transfer completes
without raising; the state is the mutable `cfg.top_level_folder`.  The
saved selection is restored by the statement after the loop, which runs
only when the loop completes normally — there is no try/finally in the
source, so an exception leaves the selection at the failing folder. -/
def transferEntireProject (transferAllFunc : Str → Bool)
    (topLevelFolder : Str) : List Str × Str × Bool :=
  let tmpCurrentTopLevelFolder := topLevelFolder
  let (attempted, finalTlf, completed) :=
    transferLoop transferAllFunc getTopLevelFolders topLevelFolder
  if completed then (attempted, tmpCurrentTopLevelFolder, true)
  else (attempted, finalTlf, false)

/-! ## Sample configurations for concrete instances

The canonical data types and their fixed levels (`canonical_configs.py`
and the repository's tests): `ephys`, `behav`, `funcimg` at the session
level and `histology` at the subject level. -/

/-- A project configuration with base folder `rawdata` and the four
canonical data types, all enabled. -/
def sampleCfgCanonical : Configs :=
  ⟨["rawdata".toList],
   [("ephys".toList, ⟨"ephys".toList, true, "ses".toList⟩),
    ("behav".toList, ⟨"behav".toList, true, "ses".toList⟩),
    ("funcimg".toList, ⟨"funcimg".toList, true, "ses".toList⟩),
    ("histology".toList, ⟨"histology".toList, true, "sub".toList⟩)]⟩

/-- A project configuration with base folder `rawdata` and two enabled
session-level data types. -/
def sampleCfgTwoSes : Configs :=
  ⟨["rawdata".toList],
   [("ephys".toList, ⟨"ephys".toList, true, "ses".toList⟩),
    ("behav".toList, ⟨"behav".toList, true, "ses".toList⟩)]⟩

/-- A project configuration with base folder `rawdata` and no data
types. -/
def sampleCfgBare : Configs := ⟨["rawdata".toList], []⟩

/-- A filesystem in which the base folder `rawdata` contains the single
subject folder `sub-001`. -/
def sampleFsOneSub : List Path :=
  [["rawdata".toList], ["rawdata".toList, "sub-001".toList]]

/-- A filesystem in which `rawdata/sub-001` contains the session folder
`ses-001`. -/
def sampleFsOneSubOneSes : List Path :=
  [["rawdata".toList], ["rawdata".toList, "sub-001".toList],
   ["rawdata".toList, "sub-001".toList, "ses-001".toList]]

/-- The directories a full-tree call (`data_type = "all"`) creates for one
subject and one session under `sampleCfgCanonical`: the subject folder,
`histology` at the subject level, the session folder, and `ephys`,
`behav`, `funcimg` at the session level, each data-type folder with its
metadata sibling. -/
def sampleCreatedAll : List Path :=
  [["rawdata".toList, "sub-001".toList],
   ["rawdata".toList, "sub-001".toList, "histology".toList],
   ["rawdata".toList, "sub-001".toList, "histology".toList,
    ".datashuttle_meta".toList],
   ["rawdata".toList, "sub-001".toList, "ses-001".toList],
   ["rawdata".toList, "sub-001".toList, "ses-001".toList, "ephys".toList],
   ["rawdata".toList, "sub-001".toList, "ses-001".toList, "ephys".toList,
    ".datashuttle_meta".toList],
   ["rawdata".toList, "sub-001".toList, "ses-001".toList, "behav".toList],
   ["rawdata".toList, "sub-001".toList, "ses-001".toList, "behav".toList,
    ".datashuttle_meta".toList],
   ["rawdata".toList, "sub-001".toList, "ses-001".toList,
    "funcimg".toList],
   ["rawdata".toList, "sub-001".toList, "ses-001".toList, "funcimg".toList,
    ".datashuttle_meta".toList]]

/-- The directories a call requesting only `behav` creates for one subject
and one session under `sampleCfgTwoSes`. -/
def sampleCreatedBehav : List Path :=
  [["rawdata".toList, "sub-001".toList],
   ["rawdata".toList, "sub-001".toList, "ses-001".toList],
   ["rawdata".toList, "sub-001".toList, "ses-001".toList, "behav".toList],
   ["rawdata".toList, "sub-001".toList, "ses-001".toList, "behav".toList,
    ".datashuttle_meta".toList]]

end Datashuttle

namespace Datashuttle

/-! Sanity examples (executability of the embedding). -/

example : splitOnStr "sub-01@TO@003_id-5".toList "01@TO@003".toList
    = ["sub-".toList, "_id-5".toList] := by decide

example : strNat "0042".toList = 42 := by decide

example : natRepr 105 = "105".toList := by decide

example : zfill (natRepr 7) 3 = "007".toList := by decide

example : numLeadingZeros "003".toList = 2 := by decide

example : replaceStr "a_@DATE@_b".toList "@DATE@".toList "date-1".toList
    = "a_date-1_b".toList := by decide

example : updateNamesWithRangeToFlag ["sub-01@TO@003".toList] "sub-".toList
    = .ok ["sub-001".toList, "sub-002".toList, "sub-003".toList] := by decide

example : updateNamesWithRangeToFlag ["sub-02@TO@04".toList, "sub-07".toList]
    "sub-".toList
    = .ok ["sub-02".toList, "sub-03".toList, "sub-04".toList,
           "sub-07".toList] := by decide

example : updateNamesWithRangeToFlag ["sub-9@TO@10".toList] "sub-".toList
    = .ok ["sub-9".toList, "sub-10".toList] := by decide

example : updateNamesWithRangeToFlag ["sub-3@TO@2".toList] "sub-".toList
    = .error .invalidRange := by decide

example : updateNamesWithRangeToFlag ["sub-1@TO@x".toList] "sub-".toList
    = .error .invalidRangeFormat := by decide

example : updateNamesWithDatetime "20230101".toList "120000".toList
    ["sub-001@DATE@".toList]
    = .ok ["sub-001_date-20230101".toList] := by decide

example : updateNamesWithDatetime "20230101".toList "120000".toList
    ["sub-001_@DATETIME@".toList]
    = .ok ["sub-001_date-20230101_time-120000".toList] := by decide

example : formatNames ["11".toList, "sub-002".toList] "sub-".toList
    "20230101".toList "120000".toList
    = .ok ["sub-11".toList, "sub-002".toList] := by decide

example : globMatch "*sub-*".toList "my_sub-001".toList = true := by decide

example : globMatch "*sub-*".toList "ses-001".toList = false := by decide

example : globMatch "sub-001_date-*".toList "sub-001_date-20230101".toList
    = true := by decide

example :
    getValuesFromBidsFormattedName
      ["sub-001_id-123".toList, "sub-02".toList, "nonsense".toList]
      "sub".toList = [1, 2] := by decide

example : sortNats [3, 1, 2] = [1, 2, 3] := by decide

example : integersAreConsecutive [1, 2, 4] = false := by decide

/-- Mirrors the scenario of the repository's
`test_duplicate_ses_or_sub_key_value_pair`: with `sub-001_id-123` on disk,
proposing `sub-001_id-125` (no sessions) collides. -/
example :
    checkNoDuplicateSubSesKeyValues
      [["rawdata".toList], ["rawdata".toList, "sub-001_id-123".toList]]
      [["rawdata".toList].head!]
      ["sub-001_id-125".toList] none = .error .duplicateKey := by decide

example :
    getNextSubOrSesNumber
      ["sub-001".toList, "sub-002".toList, "sub-003".toList] []
      "sub".toList = .ok (false, 4, 3) := by decide

example :
    getNextSubOrSesNumber [] [] "sub".toList
    = .error .noExistingFolders := by decide

example :
    transferEntireProject (fun _ => true) "derivatives".toList
    = (getTopLevelFolders, "derivatives".toList, true) := by decide

example :
    transferEntireProject (fun f => !(f == "derivatives".toList))
      "rawdata".toList
    = (["rawdata".toList, "derivatives".toList], "derivatives".toList,
       false) := by decide

/-! ## Lemmas about the decimal-number model -/

theorem charOfNat_digit_toNat (n : Nat) (h : n < 10) :
    (Char.ofNat (48 + n)).toNat = 48 + n := by
  interval_cases n <;> decide

theorem strNat_append_singleton (l : Str) (c : Char) :
    strNat (l ++ [c]) = 10 * strNat l + (c.toNat - 48) := by
  simp [strNat, List.foldl_append, Nat.mul_comm]

theorem strNat_natReprFuel (f : Nat) :
    ∀ n, n < f → strNat (natReprFuel f n) = n := by
  induction f with
  | zero => intro n h; omega
  | succ f ih =>
    intro n h
    simp only [natReprFuel]
    by_cases h10 : n < 10
    · rw [if_pos h10]
      simp [strNat, charOfNat_digit_toNat n h10]
    · have hd : n / 10 < n := Nat.div_lt_self (by omega) (by omega)
      rw [if_neg h10, strNat_append_singleton, ih (n / 10) (by omega),
        charOfNat_digit_toNat (n % 10) (Nat.mod_lt _ (by omega))]
      omega

theorem strNat_natRepr (n : Nat) : strNat (natRepr n) = n :=
  strNat_natReprFuel (n + 1) n (Nat.lt_succ_self n)

theorem natReprFuel_stable (f : Nat) :
    ∀ g n, n < f → n < g → natReprFuel f n = natReprFuel g n := by
  induction f with
  | zero => intro g n h _; omega
  | succ f ih =>
    intro g n hf hg
    cases g with
    | zero => omega
    | succ g =>
      simp only [natReprFuel]
      by_cases h10 : n < 10
      · simp [h10]
      · have hd : n / 10 < n := Nat.div_lt_self (by omega) (by omega)
        rw [if_neg h10, if_neg h10, ih g (n / 10) (by omega) (by omega)]

theorem natReprFuel_length_pos (f n : Nat) (h : n < f) :
    0 < (natReprFuel f n).length := by
  cases f with
  | zero => omega
  | succ f => simp only [natReprFuel]; split <;> simp

theorem natReprFuel_length_le (f : Nat) :
    ∀ m n, m ≤ n → n < f →
      (natReprFuel f m).length ≤ (natReprFuel f n).length := by
  induction f with
  | zero => intro m n _ h; omega
  | succ f ih =>
    intro m n hmn hn
    simp only [natReprFuel]
    by_cases hm10 : m < 10
    · by_cases hn10 : n < 10
      · simp [hm10, hn10]
      · have hd : n / 10 < n := Nat.div_lt_self (by omega) (by omega)
        have := natReprFuel_length_pos f (n / 10) (by omega)
        rw [if_pos hm10, if_neg hn10]
        simp only [List.length_append, List.length_cons, List.length_nil]
        omega
    · have hn10 : ¬ n < 10 := by omega
      have hdm : m / 10 < m := Nat.div_lt_self (by omega) (by omega)
      have hdn : n / 10 < n := Nat.div_lt_self (by omega) (by omega)
      have := ih (m / 10) (n / 10) (Nat.div_le_div_right hmn) (by omega)
      rw [if_neg hm10, if_neg hn10]
      simp only [List.length_append, List.length_cons, List.length_nil]
      omega

theorem natRepr_length_mono {m n : Nat} (h : m ≤ n) :
    (natRepr m).length ≤ (natRepr n).length := by
  rw [natRepr, natRepr,
    natReprFuel_stable (m + 1) (n + 1) m (by omega) (by omega)]
  exact natReprFuel_length_le (n + 1) m n h (by omega)

theorem zfill_length (s : Str) (k : Nat) :
    (zfill s k).length = max s.length k := by
  unfold zfill
  split <;> simp <;> omega

theorem strNat_replicate_zero (k : Nat) (l : Str) :
    strNat (List.replicate k '0' ++ l) = strNat l := by
  induction k with
  | zero => simp
  | succ k ih =>
    have h0 : strNat ('0' :: (List.replicate k '0' ++ l))
        = strNat (List.replicate k '0' ++ l) := by
      simp [strNat]
    simpa [List.replicate_succ] using h0.trans ih

theorem strNat_zfill (s : Str) (k : Nat) : strNat (zfill s k) = strNat s := by
  unfold zfill
  split
  · rfl
  · exact strNat_replicate_zero _ _

/-! ## Lemmas about range expansion -/

theorem makeList_length (d1 d2 s e : Str) :
    (makeListOfZeroPaddedNamesAcrossRange d1 d2 s e).length
      = strNat d2 + 1 - strNat d1 := by
  simp [makeListOfZeroPaddedNamesAcrossRange]

theorem makeList_get (d1 d2 s e : Str) (i : Nat)
    (h : i < (makeListOfZeroPaddedNamesAcrossRange d1 d2 s e).length) :
    (makeListOfZeroPaddedNamesAcrossRange d1 d2 s e).get ⟨i, h⟩
      = s ++ zfill (natRepr (strNat d1 + i))
          (max (numLeadingZeros d1) (numLeadingZeros d2) + 1) ++ e := by
  simp [makeListOfZeroPaddedNamesAcrossRange]

/-! ## Lemmas about the `Except` monad and list combinators -/

theorem except_bind_ok {ε α β : Type} (a : α) (f : α → Except ε β) :
    ((Except.ok a : Except ε α) >>= f) = f a := rfl

theorem except_bind_error {ε α β : Type} (e : ε) (f : α → Except ε β) :
    ((Except.error e : Except ε α) >>= f) = .error e := rfl

theorem except_map_ok {ε α β : Type} (g : α → β) (a : α) :
    (g <$> (Except.ok a : Except ε α)) = .ok (g a) := rfl

theorem forM_ok {α : Type} (f : α → Except DsError Unit) :
    ∀ l : List α, (∀ x ∈ l, f x = .ok ()) → l.forM f = .ok () := by
  intro l
  induction l with
  | nil => intro _; rfl
  | cons a t ih =>
    intro h
    rw [List.forM_cons', h a (List.mem_cons_self a t), except_bind_ok]
    exact ih (fun x hx => h x (List.mem_cons_of_mem _ hx))

theorem forM_error {α : Type} (f : α → Except DsError Unit) (E : DsError)
    (hval : ∀ x, f x = .ok () ∨ f x = .error E) :
    ∀ l : List α, (∃ x ∈ l, f x = .error E) → l.forM f = .error E := by
  intro l
  induction l with
  | nil => rintro ⟨x, hx, _⟩; cases hx
  | cons a t ih =>
    rintro ⟨x, hx, hfx⟩
    rw [List.forM_cons']
    rcases hval a with ha | ha
    · rw [ha, except_bind_ok]
      rcases List.mem_cons.mp hx with rfl | hxt
      · rw [hfx] at ha; cases ha
      · exact ih ⟨x, hxt, hfx⟩
    · rw [ha, except_bind_error]

theorem mem_insertSorted (n x : Nat) (l : List Nat) :
    x ∈ insertSorted n l ↔ x = n ∨ x ∈ l := by
  induction l with
  | nil => simp [insertSorted]
  | cons m t ih =>
    simp only [insertSorted]
    split
    · simp [List.mem_cons]
    · simp only [List.mem_cons, ih]
      tauto

theorem mem_sortNats (x : Nat) (l : List Nat) : x ∈ sortNats l ↔ x ∈ l := by
  induction l with
  | nil => simp [sortNats]
  | cons a t ih =>
    show x ∈ insertSorted a (sortNats t) ↔ _
    rw [mem_insertSorted, ih]
    simp [List.mem_cons]

/-! ## Claim C4 -/

theorem transferLoop_all (tf : Str → Bool) :
    ∀ (l : List Str) (cur : Str), (∀ f ∈ l, tf f = true) →
      ∃ fin, transferLoop tf l cur = (l, fin, true) := by
  intro l
  induction l with
  | nil => intro cur _; exact ⟨cur, rfl⟩
  | cons a t ih =>
    intro cur h
    obtain ⟨fin, hfin⟩ := ih a (fun f hf => h f (List.mem_cons_of_mem _ hf))
    refine ⟨fin, ?_⟩
    simp only [transferLoop, h a (List.mem_cons_self a t), if_true, hfin]

theorem transferLoop_fail (tf : Str → Bool) (f : Str) (hf : tf f = false) :
    ∀ (pre post : List Str) (cur : Str), (∀ g ∈ pre, tf g = true) →
      transferLoop tf (pre ++ f :: post) cur = (pre ++ [f], f, false) := by
  intro pre
  induction pre with
  | nil =>
    intro post cur _
    simp only [List.nil_append, transferLoop, hf]
    rfl
  | cons a t ih =>
    intro post cur h
    have ht := ih post a (fun g hg => h g (List.mem_cons_of_mem _ hg))
    simp only [List.cons_append, transferLoop,
      h a (List.mem_cons_self a t), if_true]
    rw [show t.append (f :: post) = t ++ f :: post from rfl, ht]

/-- C4 counterexample: the claim — after a transfer-entire-project
operation the TopLevelFolder selection equals its prior value and every
canonical top-level folder's transfer is attempted even when one raises —
fails at a transfer function that raises on `rawdata`: starting from the
selection `derivatives`, the final selection is `rawdata` (not restored)
and only `rawdata` was attempted. -/
theorem transfer_entire_project_failure_counterexample :
    (transferEntireProject (fun f => !(f == "rawdata".toList))
        "derivatives".toList).2.1 ≠ "derivatives".toList ∧
    (transferEntireProject (fun f => !(f == "rawdata".toList))
        "derivatives".toList).1 ≠ getTopLevelFolders := by decide

/-- C4 (amended): when every per-top-level-folder transfer completes
without raising, `_transfer_entire_project` attempts every canonical
top-level folder and restores the prior TopLevelFolder selection; but when
a transfer raises, the loop aborts — the following folders are not
attempted and the selection is left at the failing folder, not
restored. -/
theorem transfer_entire_project_spec (tf : Str → Bool) (s0 : Str) :
    ((∀ f ∈ getTopLevelFolders, tf f = true) →
      transferEntireProject tf s0 = (getTopLevelFolders, s0, true)) ∧
    (∀ pre f post, getTopLevelFolders = pre ++ f :: post →
      (∀ g ∈ pre, tf g = true) → tf f = false →
      transferEntireProject tf s0 = (pre ++ [f], f, false)) := by
  constructor
  · intro hall
    obtain ⟨fin, hfin⟩ := transferLoop_all tf getTopLevelFolders s0 hall
    simp only [transferEntireProject, hfin, if_true]
  · intro pre f post htop hpre hf
    have hl := transferLoop_fail tf f hf pre post s0 hpre
    simp only [transferEntireProject, htop, hl]
    rfl

/-- C4 witness: the amended theorem applied at an always-succeeding
transfer (restoration and full coverage) and at a transfer failing on
`derivatives` (abort at the failing folder). -/
theorem transfer_entire_project_spec_witness :
    transferEntireProject (fun _ => true) "derivatives".toList
      = (getTopLevelFolders, "derivatives".toList, true) ∧
    transferEntireProject (fun f => !(f == "derivatives".toList))
        "rawdata".toList
      = (["rawdata".toList, "derivatives".toList], "derivatives".toList,
         false) :=
  ⟨(transfer_entire_project_spec (fun _ => true) "derivatives".toList).1
      (by decide),
   (transfer_entire_project_spec (fun f => !(f == "derivatives".toList))
      "rawdata".toList).2 ["rawdata".toList] "derivatives".toList
      ["code".toList, "analysis".toList] (by decide) (by decide) (by decide)⟩

/-! ## Claim C10 -/

/-- C10: wildcard resolution returns exactly the deduplicated set union of
the non-wildcard input names and the backend search results substituted
for each wildcard-tagged name; deduplication also collapses repeated
non-wildcard input names (the result has no duplicates).  The input order
is not guaranteed in the source (`list(set(...))`), and the statement is
order-independent: only membership and duplicate-freedom are asserted. -/
theorem search_for_wildcards_spec (searchFn : Str → List Str)
    (allNames : List Str) :
    (searchForWildcards searchFn allNames).Nodup ∧
    ∀ x, x ∈ searchForWildcards searchFn allNames ↔
      ((∃ name ∈ allNames, containsSub name "@*@".toList = false ∧ x = name)
        ∨ (∃ name ∈ allNames, containsSub name "@*@".toList = true ∧
            x ∈ searchFn (replaceStr name "@*@".toList "*".toList))) := by
  refine ⟨List.nodup_dedup _, fun x => ?_⟩
  simp only [searchForWildcards, List.mem_dedup, List.mem_flatMap]
  constructor
  · rintro ⟨name, hname, hx⟩
    by_cases h : containsSub name "@*@".toList = true
    · right
      rw [if_pos h] at hx
      exact ⟨name, hname, h, hx⟩
    · left
      rw [if_neg h] at hx
      exact ⟨name, hname, Bool.eq_false_iff.mpr h, List.mem_singleton.mp hx⟩
  · rintro (⟨name, hname, h, hxn⟩ | ⟨name, hname, h, hx⟩)
    · refine ⟨name, hname, ?_⟩
      rw [if_neg (Bool.eq_false_iff.mp h)]
      exact List.mem_singleton.mpr hxn
    · refine ⟨name, hname, ?_⟩
      rw [if_pos h]
      exact hx

/-! ## Claim C7 -/

/-- C7: the next-number suggestion fails with NoExistingFolders if and
only if the union of local and central folder names (duplicates collapsed)
is empty; when the extracted keys have maximum `m` the call returns
`(m + 1, m)` together with the gap-warning flag — a non-contiguous key
sequence only flips that flag and never changes the numbers or produces a
failure.  `m` is genuinely the maximum of the keys extracted from the
union. -/
theorem get_next_number_spec (localFoldernames centralFoldernames : List Str)
    (bidsKey : Str) :
    (getNextSubOrSesNumber localFoldernames centralFoldernames bidsKey
        = .error .noExistingFolders
      ↔ localFoldernames = [] ∧ centralFoldernames = []) ∧
    (∀ m,
      (sortNats (getValuesFromBidsFormattedName
        ((localFoldernames ++ centralFoldernames).dedup) bidsKey)).max?
          = some m →
      getNextSubOrSesNumber localFoldernames centralFoldernames bidsKey
          = .ok (!integersAreConsecutive (sortNats
              (getValuesFromBidsFormattedName
                ((localFoldernames ++ centralFoldernames).dedup) bidsKey)),
            m + 1, m) ∧
        m ∈ getValuesFromBidsFormattedName
          ((localFoldernames ++ centralFoldernames).dedup) bidsKey ∧
        ∀ v ∈ getValuesFromBidsFormattedName
          ((localFoldernames ++ centralFoldernames).dedup) bidsKey,
          v ≤ m) := by
  constructor
  · by_cases hlen :
        ((localFoldernames ++ centralFoldernames).dedup).length = 0
    · have hempty : localFoldernames = [] ∧ centralFoldernames = [] :=
        List.append_eq_nil.mp
          ((List.dedup_eq_nil _).mp (List.length_eq_zero.mp hlen))
      simp only [getNextSubOrSesNumber, if_pos hlen]
      simp [hempty.1, hempty.2]
    · have hne : ¬ (localFoldernames = [] ∧ centralFoldernames = []) := by
        rintro ⟨h1, h2⟩
        rw [h1, h2] at hlen
        simp at hlen
      cases hmax : (sortNats (getValuesFromBidsFormattedName
          ((localFoldernames ++ centralFoldernames).dedup) bidsKey)).max? with
      | none =>
        simp only [getNextSubOrSesNumber, if_neg hlen, hmax]
        constructor
        · intro h; cases h
        · intro h; exact absurd h hne
      | some m =>
        simp only [getNextSubOrSesNumber, if_neg hlen, hmax]
        constructor
        · intro h; cases h
        · intro h; exact absurd h hne
  · intro m hmax
    have hlen : ¬ ((localFoldernames ++ centralFoldernames).dedup).length = 0 := by
      intro h0
      rw [List.length_eq_zero.mp h0] at hmax
      simp [getValuesFromBidsFormattedName, sortNats] at hmax
    obtain ⟨hmem, hle⟩ := List.max?_eq_some_iff'.mp hmax
    refine ⟨?_, (mem_sortNats m _).mp hmem,
      fun v hv => hle v ((mem_sortNats v _).mpr hv)⟩
    simp only [getNextSubOrSesNumber, if_neg hlen, hmax]

/-- C7 witness: local `sub-001`, `sub-003` and central `sub-001`: the union
has keys {1, 3} with a gap, so the warning flag is set but the call still
returns `(4, 3)`. -/
theorem get_next_number_spec_witness :
    getNextSubOrSesNumber
        ["sub-001".toList, "sub-003".toList] ["sub-001".toList]
        "sub".toList
      = .ok (true, 4, 3) ∧
    3 ∈ getValuesFromBidsFormattedName
        ((["sub-001".toList, "sub-003".toList] ++ ["sub-001".toList]).dedup)
        "sub".toList :=
  have h := (get_next_number_spec ["sub-001".toList, "sub-003".toList]
      ["sub-001".toList] "sub".toList).2 3 (by decide)
  ⟨h.1.trans (by decide), h.2.1⟩

/-! ## Claim C1 -/

/-- C1 counterexample: the claim quantifies over every name whose first
underscore-delimited segment is `<kind>-<a>@TO@<b>` with `int(a) < int(b)`
and asserts that expansion produces the `b - a + 1` names; but for
`sub-1@TO@2_1@TO@2` — whose first segment is `sub-1@TO@2` with `1 < 2` —
the digit-run text `1@TO@2` occurs twice in the name, so
`name.split(tag_number)` yields three pieces and unpacking it into two
variables raises `ValueError`: no names are produced at all. -/
theorem range_tag_expansion_counterexample :
    parseRangeTag "sub-".toList "sub-1@TO@2_1@TO@2".toList
      = some ("1".toList, "2".toList) ∧
    strNat "1".toList < strNat "2".toList ∧
    updateNamesWithRangeToFlag ["sub-1@TO@2_1@TO@2".toList] "sub-".toList
      = .error .valueError := by decide

/-- C1 (amended): for every input name whose first underscore-delimited
segment is `<kind>-<a>@TO@<b>` with `int(a) < int(b)`, provided the text
`<a>@TO@<b>` occurs exactly once in the name (`split` yields exactly the
before/after pieces `s`, `e`), expansion produces exactly
`int(b) - int(a) + 1` names, the `i`-th carrying the number `a + i`
(so one name per integer of `[a, b]`, in strictly ascending numeric
order), with the text before the digit run and the text after it
re-attached verbatim to every generated name. -/
theorem range_tag_expansion (pre name d1 d2 s e : Str)
    (hTO : containsSub name "@TO@".toList = true)
    (hparse : parseRangeTag pre name = some (d1, d2))
    (hsplit : splitOnStr name (d1 ++ "@TO@".toList ++ d2) = [s, e])
    (hlt : strNat d1 < strNat d2) :
    ∃ out, updateNamesWithRangeToFlag [name] pre = .ok out ∧
      out.length = strNat d2 - strNat d1 + 1 ∧
      (∀ i (h : i < out.length),
        out.get ⟨i, h⟩ = s ++ zfill (natRepr (strNat d1 + i))
          (max (numLeadingZeros d1) (numLeadingZeros d2) + 1) ++ e) ∧
      (∀ i (h : i < out.length),
        strNat (zfill (natRepr (strNat d1 + i))
            (max (numLeadingZeros d1) (numLeadingZeros d2) + 1))
          = strNat d1 + i) := by
  refine ⟨makeListOfZeroPaddedNamesAcrossRange d1 d2 s e, ?_, ?_, ?_, ?_⟩
  · simp only [updateNamesWithRangeToFlag, List.foldlM_cons, List.foldlM_nil,
      hTO, if_true, hparse, hsplit]
    rw [if_neg (by omega)]
    simp [except_bind_ok]
  · rw [makeList_length]; omega
  · exact fun i h => makeList_get d1 d2 s e i h
  · intro i _
    rw [strNat_zfill, strNat_natRepr]

/-- C1 witness: expanding `sub-01@TO@003_id-5` (prefix text `sub-`, suffix
text `_id-5`) through the amended theorem, plus the concrete evaluation. -/
theorem range_tag_expansion_witness :
    (∃ out, updateNamesWithRangeToFlag ["sub-01@TO@003_id-5".toList]
        "sub-".toList = .ok out ∧
      out.length = strNat "003".toList - strNat "01".toList + 1 ∧
      (∀ i (h : i < out.length),
        out.get ⟨i, h⟩ = "sub-".toList
          ++ zfill (natRepr (strNat "01".toList + i))
            (max (numLeadingZeros "01".toList)
              (numLeadingZeros "003".toList) + 1)
          ++ "_id-5".toList) ∧
      (∀ i (h : i < out.length),
        strNat (zfill (natRepr (strNat "01".toList + i))
            (max (numLeadingZeros "01".toList)
              (numLeadingZeros "003".toList) + 1))
          = strNat "01".toList + i)) ∧
    updateNamesWithRangeToFlag ["sub-01@TO@003_id-5".toList] "sub-".toList
      = .ok ["sub-001_id-5".toList, "sub-002_id-5".toList,
             "sub-003_id-5".toList] :=
  ⟨range_tag_expansion "sub-".toList "sub-01@TO@003_id-5".toList
      "01".toList "003".toList "sub-".toList "_id-5".toList
      (by decide) (by decide) (by decide) (by decide),
   by decide⟩

/-! ## Claim C2 -/

/-- C2 counterexample: the claim asserts that all names generated from one
`@TO@` tag have numeric components of the same character width, equal to
the widest endpoint width (`max leading zeros + natural digit count of
the larger bound`); but `sub-9@TO@10` expands to `sub-9`, `sub-10` —
widths 1 and 2 — not to the claimed `sub-09`, `sub-10` of uniform
width 2. -/
theorem range_padding_counterexample :
    updateNamesWithRangeToFlag ["sub-9@TO@10".toList] "sub-".toList
      = .ok ["sub-9".toList, "sub-10".toList] ∧
    updateNamesWithRangeToFlag ["sub-9@TO@10".toList] "sub-".toList
      ≠ .ok ["sub-09".toList, "sub-10".toList] := by decide

/-- C2 (amended): the numeric component of each generated name is the
decimal representation of its number `zfill`-padded to
`max(leading-zero count of left, leading-zero count of right) + 1`
characters, so its width is the maximum of that pad and the number's
natural digit count; all widths are equal to the pad (and hence uniform)
once the larger bound's natural digit count does not exceed the pad —
not, in general, the widest width of the two endpoints. -/
theorem range_padding_spec (d1 d2 s e : Str) :
    ∀ i (h : i < (makeListOfZeroPaddedNamesAcrossRange d1 d2 s e).length),
      (makeListOfZeroPaddedNamesAcrossRange d1 d2 s e).get ⟨i, h⟩
        = s ++ zfill (natRepr (strNat d1 + i))
            (max (numLeadingZeros d1) (numLeadingZeros d2) + 1) ++ e ∧
      (zfill (natRepr (strNat d1 + i))
          (max (numLeadingZeros d1) (numLeadingZeros d2) + 1)).length
        = max (natRepr (strNat d1 + i)).length
            (max (numLeadingZeros d1) (numLeadingZeros d2) + 1) ∧
      ((natRepr (strNat d2)).length
            ≤ max (numLeadingZeros d1) (numLeadingZeros d2) + 1 →
        (zfill (natRepr (strNat d1 + i))
            (max (numLeadingZeros d1) (numLeadingZeros d2) + 1)).length
          = max (numLeadingZeros d1) (numLeadingZeros d2) + 1) := by
  intro i h
  refine ⟨makeList_get d1 d2 s e i h, zfill_length _ _, fun hb => ?_⟩
  have hi : strNat d1 + i ≤ strNat d2 := by
    rw [makeList_length] at h; omega
  have hmono := natRepr_length_mono hi
  rw [zfill_length]
  omega

/-- C2 witness: the amended theorem applied to the range `01@TO@003` at
`i = 2`: the numeric component is padded to width 3. -/
theorem range_padding_spec_witness :
    (zfill (natRepr (strNat "01".toList + 2))
        (max (numLeadingZeros "01".toList)
          (numLeadingZeros "003".toList) + 1)).length
      = max (numLeadingZeros "01".toList) (numLeadingZeros "003".toList)
          + 1 :=
  ((range_padding_spec "01".toList "003".toList "sub-".toList []
      2 (by decide)).2.2) (by decide)

/-! ## Claim C5 -/

theorem addUnderscore_ok_of_two_pieces (s key : Str)
    (h2 : ∃ a b, splitOnStr s key = [a, b]) :
    ∃ r, addUnderscoreBeforeAfterIfNotThere s key = .ok r := by
  obtain ⟨a, b, hab⟩ := h2
  unfold addUnderscoreBeforeAfterIfNotThere
  rw [hab]
  dsimp only
  split
  next heq => split at heq <;> (try split at heq) <;> simp at heq
  next heq => split <;> exact ⟨_, rfl⟩

/-- C5 counterexample: the claim asserts that a name containing more than
one of `@DATE@`, `@DATETIME@`, `@TIME@` makes expansion fail with a
MultipleDateTags error; but `sub-001_@DATE@_@TIME@` contains both `@DATE@`
and `@TIME@` and date/time substitution succeeds without any error — only
the higher-precedence `@DATE@` is substituted and the `@TIME@` tag is left
verbatim in the output name. -/
theorem multiple_date_tags_counterexample :
    containsSub "sub-001_@DATE@_@TIME@".toList "@DATE@".toList = true ∧
    containsSub "sub-001_@DATE@_@TIME@".toList "@TIME@".toList = true ∧
    updateNamesWithDatetime "20230101".toList "120000".toList
        ["sub-001_@DATE@_@TIME@".toList]
      = .ok ["sub-001_date-20230101_@TIME@".toList] := by decide

/-- C5 (amended): there is no MultipleDateTags check.  The tags are tried
in precedence order `@DATETIME@`, `@DATE@`, `@TIME@`, and only the first
applicable tag is substituted: for every name containing both `@DATE@` and
`@TIME@` but not `@DATETIME@` — with `@DATE@` occurring once, so the
left-edge underscore assertion cannot fire — expansion returns
successfully, substituting `@DATE@` and leaving every other tag in
place.  (Only a name repeating the same tag, when an underscore must be
inserted before it, fails, with an AssertionError, not MultipleDateTags.) -/
theorem datetime_precedence_no_error (dateStr timeStr name : Str)
    (h1 : containsSub name "@DATETIME@".toList = false)
    (h2 : containsSub name "@DATE@".toList = true)
    (h3 : containsSub name "@TIME@".toList = true)
    (honce : ∃ a b, splitOnStr name "@DATE@".toList = [a, b]) :
    ∃ n', addUnderscoreBeforeAfterIfNotThere name "@DATE@".toList = .ok n' ∧
      updateNamesWithDatetime dateStr timeStr [name]
        = .ok [replaceStr n' "@DATE@".toList ("date-".toList ++ dateStr)] := by
  obtain ⟨n', hn'⟩ := addUnderscore_ok_of_two_pieces name "@DATE@".toList honce
  refine ⟨n', hn', ?_⟩
  simp only [updateNamesWithDatetime, List.mapM_cons, List.mapM_nil,
    h1, h2, hn', Bool.false_eq_true, if_false, if_true, except_bind_ok]
  rfl

/-- C5 witness: the amended theorem applied to `sub-001_@DATE@_@TIME@`,
together with the resulting concrete substitution. -/
theorem datetime_precedence_no_error_witness :
    (∃ n', addUnderscoreBeforeAfterIfNotThere
        "sub-001_@DATE@_@TIME@".toList "@DATE@".toList = .ok n' ∧
      updateNamesWithDatetime "20230101".toList "120000".toList
          ["sub-001_@DATE@_@TIME@".toList]
        = .ok [replaceStr n' "@DATE@".toList
            ("date-".toList ++ "20230101".toList)]) :=
  datetime_precedence_no_error "20230101".toList "120000".toList
    "sub-001_@DATE@_@TIME@".toList (by decide) (by decide) (by decide)
    ⟨"sub-001_".toList, "_@TIME@".toList, by decide⟩

/-! ## Claim C6 -/

/-- C6 counterexample: the claim asserts that every input list with an
exact post-prefixing duplicate fails with DuplicateName; but the list
repeating `a b` twice — a duplicate after prefixing — fails with the
space-check error (InvalidNameFormat) instead, because the space check
runs before the duplicate check. -/
theorem duplicate_name_space_counterexample :
    ((ensurePrefixesOnListOfNames ["a b".toList, "a b".toList]
        "sub-".toList).length
      ≠ (ensurePrefixesOnListOfNames ["a b".toList, "a b".toList]
        "sub-".toList).dedup.length) ∧
    formatNames ["a b".toList, "a b".toList] "sub-".toList [] []
      = .error .invalidNameFormat ∧
    formatNames ["a b".toList, "a b".toList] "sub-".toList [] []
      ≠ .error .duplicateName := by decide

/-- C6 (amended): for every input name list none of whose names contains a
space (a space fails earlier, with InvalidNameFormat), an exact string
duplicate after prefixing makes `format_names` fail with DuplicateName
before any tag processing occurs: the statement quantifies over arbitrary
names — including ones whose `@TO@` or date tags are malformed and would
themselves raise — and the result is the DuplicateName error regardless,
so no range validation or expansion and no date/time substitution is
performed first. -/
theorem duplicates_rejected_before_tags (names : List Str)
    (pre dateStr timeStr : Str)
    (hspace : names.any (fun n => containsSub n [' ']) = false)
    (hdup : (ensurePrefixesOnListOfNames names pre).length
        ≠ (ensurePrefixesOnListOfNames names pre).dedup.length) :
    formatNames names pre dateStr timeStr = .error .duplicateName := by
  simp only [formatNames, hspace, Bool.false_eq_true, if_false]
  rw [if_pos hdup]

/-- C6 witness: the amended theorem applied to a duplicated pair of names
carrying a malformed `@TO@` tag (which range validation would reject with
InvalidRangeFormat had it run): the failure is DuplicateName. -/
theorem duplicates_rejected_before_tags_witness :
    formatNames ["sub-1@TO@x".toList, "sub-1@TO@x".toList] "sub-".toList
        [] []
      = .error .duplicateName :=
  duplicates_rejected_before_tags
    ["sub-1@TO@x".toList, "sub-1@TO@x".toList] "sub-".toList [] []
    (by decide) (by decide)

/-! ## Folder-tree membership and duplicate-check lemmas -/

theorem mem_makeDataTypeFolders (cfg : Configs) (dataType : DataType)
    (path : Path) (level : Str) (p : Path) :
    p ∈ makeDataTypeFolders cfg dataType path level ↔
      ∃ kv ∈ getDataTypeItems cfg dataType, kv.2.used = true ∧
        kv.2.level = level ∧
        (p = path ++ [kv.2.name] ∨
         p = path ++ [kv.2.name, ".datashuttle_meta".toList]) := by
  simp only [makeDataTypeFolders, List.mem_flatMap]
  constructor
  · rintro ⟨kv, hkv, hp⟩
    by_cases hc : (kv.2.used && kv.2.level == level) = true
    · rw [if_pos hc] at hp
      obtain ⟨hu, hl⟩ := Bool.and_eq_true_iff.mp hc
      refine ⟨kv, hkv, hu, by simpa using hl, ?_⟩
      simpa using hp
    · rw [if_neg hc] at hp
      cases hp
  · rintro ⟨kv, hkv, hu, hl, hp⟩
    refine ⟨kv, hkv, ?_⟩
    rw [if_pos (by simp [hu, hl])]
    rcases hp with hp | hp <;> simp [hp]

/-- Characterization of the directories `make_folder_trees` creates:
exactly the subject folders, the session folders, and — when a data type
was passed — the requested data-type folders with `used = true` at the
matching level, with their metadata folders. -/
theorem mem_makeFolderTrees (cfg : Configs) (subNames sesNames : List Str)
    (dataType : DataType) (created : List Path) (p : Path)
    (hok : makeFolderTrees cfg subNames sesNames dataType = .ok created) :
    p ∈ created ↔
      ((∃ sub ∈ subNames, p = cfg.base ++ [sub]) ∨
       (∃ sub ∈ subNames, ∃ ses ∈ sesNames, p = cfg.base ++ [sub, ses]) ∨
       (dataTypePassed dataType = true ∧ ∃ sub ∈ subNames,
         ∃ kv ∈ getDataTypeItems cfg dataType, kv.2.used = true ∧
           kv.2.level = "sub".toList ∧
           (p = cfg.base ++ [sub, kv.2.name] ∨
            p = cfg.base ++ [sub, kv.2.name, ".datashuttle_meta".toList])) ∨
       (dataTypePassed dataType = true ∧ ∃ sub ∈ subNames,
         ∃ ses ∈ sesNames, ∃ kv ∈ getDataTypeItems cfg dataType,
           kv.2.used = true ∧ kv.2.level = "ses".toList ∧
           (p = cfg.base ++ [sub, ses, kv.2.name] ∨
            p = cfg.base ++ [sub, ses, kv.2.name,
              ".datashuttle_meta".toList]))) := by
  have hcreated : created = subNames.flatMap (fun sub =>
      let subPath := cfg.base ++ [sub]
      [subPath]
        ++ (if dataTypePassed dataType then
              makeDataTypeFolders cfg dataType subPath "sub".toList
            else [])
        ++ sesNames.flatMap (fun ses =>
          let sesPath := cfg.base ++ [sub, ses]
          [sesPath]
            ++ (if dataTypePassed dataType then
                  makeDataTypeFolders cfg dataType sesPath "ses".toList
                else []))) := by
    unfold makeFolderTrees at hok
    split at hok
    · cases hok
    · injection hok with h
      exact h.symm
  subst hcreated
  by_cases hdt : dataTypePassed dataType = true
  · simp only [List.mem_flatMap, List.mem_append, List.mem_cons,
      List.not_mem_nil, or_false, hdt, if_true, mem_makeDataTypeFolders,
      eq_self_iff_true, true_and, List.append_assoc, List.cons_append,
      List.singleton_append, List.nil_append]
    constructor
    · rintro ⟨sub, hsub, rfl | hA | ⟨ses, hses, rfl | hC⟩⟩
      · exact Or.inl ⟨sub, hsub, rfl⟩
      · obtain ⟨kv, hkv, hu, hl, hp⟩ := hA
        exact Or.inr (Or.inr (Or.inl ⟨sub, hsub, kv, hkv, hu, hl, hp⟩))
      · exact Or.inr (Or.inl ⟨sub, hsub, ses, hses, rfl⟩)
      · obtain ⟨kv, hkv, hu, hl, hp⟩ := hC
        exact Or.inr (Or.inr (Or.inr
          ⟨sub, hsub, ses, hses, kv, hkv, hu, hl, hp⟩))
    · rintro (⟨sub, hsub, rfl⟩ | ⟨sub, hsub, ses, hses, rfl⟩ |
        ⟨sub, hsub, kv, hkv, hu, hl, hp⟩ |
        ⟨sub, hsub, ses, hses, kv, hkv, hu, hl, hp⟩)
      · exact ⟨sub, hsub, Or.inl rfl⟩
      · exact ⟨sub, hsub, Or.inr (Or.inr ⟨ses, hses, Or.inl rfl⟩)⟩
      · exact ⟨sub, hsub, Or.inr (Or.inl ⟨kv, hkv, hu, hl, hp⟩)⟩
      · exact ⟨sub, hsub,
          Or.inr (Or.inr ⟨ses, hses, Or.inr ⟨kv, hkv, hu, hl, hp⟩⟩)⟩
  · have hdt' : dataTypePassed dataType = false := Bool.eq_false_iff.mpr hdt
    simp only [List.mem_flatMap, List.mem_append, List.mem_cons,
      List.not_mem_nil, or_false, hdt', Bool.false_eq_true, if_false,
      false_and, exists_false, List.append_assoc,
      List.cons_append, List.singleton_append, List.nil_append]
    constructor
    · rintro ⟨sub, hsub, rfl | ⟨ses, hses, rfl⟩⟩
      · exact Or.inl ⟨sub, hsub, rfl⟩
      · exact Or.inr ⟨sub, hsub, ses, hses, rfl⟩
    · rintro (⟨sub, hsub, rfl⟩ | ⟨sub, hsub, ses, hses, rfl⟩)
      · exact ⟨sub, hsub, Or.inl rfl⟩
      · exact ⟨sub, hsub, Or.inr ⟨ses, hses, rfl⟩⟩

theorem checkDup_sub_error (fs : List Path) (baseFolder : Path)
    (subs : List Str)
    (hcol : (getValuesFromBidsFormattedName subs "sub".toList).any (fun v =>
        (getValuesFromBidsFormattedName
          (searchSubOrSesLevel fs baseFolder none none "*sub-*".toList)
          "sub".toList).contains v) = true) :
    checkNoDuplicateSubSesKeyValues fs baseFolder subs none
      = .error .duplicateKey := by
  simp only [checkNoDuplicateSubSesKeyValues]
  rw [if_pos hcol]

theorem checkDup_ses_error (fs : List Path) (baseFolder : Path)
    (subs sesL : List Str)
    (hcol : ∃ sub ∈ subs,
      (getValuesFromBidsFormattedName sesL "ses".toList).any (fun v =>
        (getValuesFromBidsFormattedName
          (searchSubOrSesLevel fs baseFolder (some sub) none
            "*ses-*".toList) "ses".toList).contains v) = true) :
    checkNoDuplicateSubSesKeyValues fs baseFolder subs (some sesL)
      = .error .duplicateKey := by
  simp only [checkNoDuplicateSubSesKeyValues]
  apply forM_error _ .duplicateKey
  · intro sub
    dsimp only
    split
    · exact Or.inr rfl
    · exact Or.inl rfl
  · obtain ⟨sub, hs, hc⟩ := hcol
    exact ⟨sub, hs, by rw [if_pos hc]⟩

theorem checkDup_ses_ok (fs : List Path) (baseFolder : Path)
    (subs sesL : List Str)
    (h : ∀ sub ∈ subs,
      (getValuesFromBidsFormattedName sesL "ses".toList).any (fun v =>
        (getValuesFromBidsFormattedName
          (searchSubOrSesLevel fs baseFolder (some sub) none
            "*ses-*".toList) "ses".toList).contains v) = false) :
    checkNoDuplicateSubSesKeyValues fs baseFolder subs (some sesL)
      = .ok () := by
  simp only [checkNoDuplicateSubSesKeyValues]
  apply forM_ok
  intro sub hs
  rw [if_neg (by rw [h sub hs]; exact Bool.false_ne_true)]

/-! ## Claim C8 -/

/-- C8 counterexample: with `ephys` and `behav` both enabled (`used =
true`) at the session level, a folder-creation call requesting only
`behav` creates no `ephys` folder, although ephys's used flag is true and
its level matches the session level of the call — refuting the claim's
"created if and only if used and level matches", which omits the
data-type selection of the call. -/
theorem data_type_folder_creation_counterexample :
    makeFolderTrees sampleCfgTwoSes ["sub-001".toList] ["ses-001".toList]
        (.list ["behav".toList]) = .ok sampleCreatedBehav ∧
    ("ephys".toList, (⟨"ephys".toList, true, "ses".toList⟩ : DataTypeFolder))
      ∈ sampleCfgTwoSes.dataTypeFolders ∧
    ["rawdata".toList, "sub-001".toList, "ses-001".toList, "ephys".toList]
      ∉ sampleCreatedBehav := by decide

/-- C8 (amended): for every folder-creation call, a directory is created
exactly when it is a proposed subject folder, a proposed session folder,
or a data-type folder (or its `.datashuttle_meta` sibling) whose data type
is among the items requested by the call's selection, has `used = true`,
and whose level matches the tree level at which it is placed.  In
particular a data type with `used = false` is never created — and neither
is a used data type the call did not request. -/
theorem data_type_folder_creation_spec (cfg : Configs)
    (subNames sesNames : List Str) (dataType : DataType)
    (created : List Path) (p : Path)
    (hok : makeFolderTrees cfg subNames sesNames dataType = .ok created) :
    p ∈ created ↔
      ((∃ sub ∈ subNames, p = cfg.base ++ [sub]) ∨
       (∃ sub ∈ subNames, ∃ ses ∈ sesNames, p = cfg.base ++ [sub, ses]) ∨
       (dataTypePassed dataType = true ∧ ∃ sub ∈ subNames,
         ∃ kv ∈ getDataTypeItems cfg dataType, kv.2.used = true ∧
           kv.2.level = "sub".toList ∧
           (p = cfg.base ++ [sub, kv.2.name] ∨
            p = cfg.base ++ [sub, kv.2.name, ".datashuttle_meta".toList])) ∨
       (dataTypePassed dataType = true ∧ ∃ sub ∈ subNames,
         ∃ ses ∈ sesNames, ∃ kv ∈ getDataTypeItems cfg dataType,
           kv.2.used = true ∧ kv.2.level = "ses".toList ∧
           (p = cfg.base ++ [sub, ses, kv.2.name] ∨
            p = cfg.base ++ [sub, ses, kv.2.name,
              ".datashuttle_meta".toList]))) :=
  mem_makeFolderTrees cfg subNames sesNames dataType created p hok

/-- C8 witness: the amended theorem applied to a full-tree call
(`data_type = "all"`) under the canonical configuration: the subject-level
`histology` folder is among the created directories. -/
theorem data_type_folder_creation_spec_witness :
    ["rawdata".toList, "sub-001".toList, "histology".toList]
      ∈ sampleCreatedAll :=
  (data_type_folder_creation_spec sampleCfgCanonical ["sub-001".toList]
      ["ses-001".toList] (.str "all".toList) sampleCreatedAll
      ["rawdata".toList, "sub-001".toList, "histology".toList]
      (by decide)).mpr (by decide)

/-! ## Claim C3 -/

/-- C3 counterexample: with `sub-001` on disk and session names provided,
proposing `sub-01` — whose NumericKey 1 equals the existing subject's key
up to zero-padding — does not fail with DuplicateKey: no subject-level
check runs at all, the call succeeds and creates the colliding subject
folder. -/
theorem duplicate_key_counterexample :
    1 ∈ getValuesFromBidsFormattedName
        (searchSubOrSesLevel sampleFsOneSub ["rawdata".toList] none none
          "*sub-*".toList) "sub".toList ∧
    getValuesFromBidsFormattedName ["sub-01".toList] "sub".toList = [1] ∧
    makeSubFolders sampleCfgBare sampleFsOneSub ["sub-01".toList]
        (some ["ses-001".toList]) (.str []) [] []
      = .ok [["rawdata".toList, "sub-01".toList],
             ["rawdata".toList, "sub-01".toList, "ses-001".toList]] := by
  decide

/-- C3 (amended): the duplicate-key check runs before any directory is
created, but the level it checks depends on the call's shape.  With no
session names, a proposed subject NumericKey equal — as an integer,
regardless of zero-padding — to an existing on-disk subject key aborts the
whole call with DuplicateKey and nothing is created; with session names,
only session keys are checked, scoped per proposed subject, and a
per-subject session-key collision likewise aborts with DuplicateKey and
nothing created.  (A subject-level collision alone does not abort when
session names are provided; see the counterexample.) -/
theorem duplicate_key_aborts_creation (cfg : Configs) (fs : List Path)
    (subNames : List Str) (dataType : DataType) (dateStr timeStr : Str) :
    (∀ subs, formatNames subNames "sub-".toList dateStr timeStr = .ok subs →
      (getValuesFromBidsFormattedName subs "sub".toList).any (fun v =>
        (getValuesFromBidsFormattedName
          (searchSubOrSesLevel fs cfg.base none none "*sub-*".toList)
          "sub".toList).contains v) = true →
      makeSubFolders cfg fs subNames none dataType dateStr timeStr
        = .error .duplicateKey) ∧
    (∀ sesNamesIn subs sesL,
      formatNames subNames "sub-".toList dateStr timeStr = .ok subs →
      formatNames sesNamesIn "ses-".toList dateStr timeStr = .ok sesL →
      (∃ sub ∈ subs,
        (getValuesFromBidsFormattedName sesL "ses".toList).any (fun v =>
          (getValuesFromBidsFormattedName
            (searchSubOrSesLevel fs cfg.base (some sub) none
              "*ses-*".toList) "ses".toList).contains v) = true) →
      makeSubFolders cfg fs subNames (some sesNamesIn) dataType dateStr
        timeStr = .error .duplicateKey) := by
  constructor
  · intro subs hsub hcol
    have hc := checkDup_sub_error fs cfg.base subs hcol
    simp only [makeSubFolders, hsub, except_bind_ok, pure_bind, hc,
      except_bind_error]
  · intro sesNamesIn subs sesL hsub hses hcol
    have hc := checkDup_ses_error fs cfg.base subs sesL hcol
    simp only [makeSubFolders, hsub, hses, except_map_ok, except_bind_ok,
      hc, except_bind_error]

/-- C3 witness: the amended theorem applied to a subject-level collision
without sessions (`sub-01` against on-disk `sub-001`), and to a
session-level collision (`ses-01` against on-disk `ses-001` of the same
subject). -/
theorem duplicate_key_aborts_creation_witness :
    makeSubFolders sampleCfgBare sampleFsOneSub ["sub-01".toList] none
        (.str []) [] [] = .error .duplicateKey ∧
    makeSubFolders sampleCfgBare sampleFsOneSubOneSes ["sub-001".toList]
        (some ["ses-01".toList]) (.str []) [] []
      = .error .duplicateKey :=
  ⟨(duplicate_key_aborts_creation sampleCfgBare sampleFsOneSub
      ["sub-01".toList] (.str []) [] []).1 ["sub-01".toList]
      (by decide) (by decide),
   (duplicate_key_aborts_creation sampleCfgBare sampleFsOneSubOneSes
      ["sub-001".toList] (.str []) [] []).2 ["ses-01".toList]
      ["sub-001".toList] ["ses-01".toList] (by decide) (by decide)
      ⟨"sub-001".toList, by decide, by decide⟩⟩

/-! ## Claim C9 -/

/-- C9: when session names are provided, no subject-level NumericKey
collision check is performed at all: for every configuration and
filesystem — in particular one whose existing subject keys collide with
the proposed subjects' keys — the call succeeds and creates every
proposed subject folder, provided only that within each proposed subject
no proposed session key collides with that subject's own existing session
keys (and the data-type selection is valid). -/
theorem no_subject_check_with_sessions (cfg : Configs) (fs : List Path)
    (subNames sesNamesIn : List Str) (dataType : DataType)
    (dateStr timeStr : Str) (subs sesL : List Str)
    (hsub : formatNames subNames "sub-".toList dateStr timeStr = .ok subs)
    (hses : formatNames sesNamesIn "ses-".toList dateStr timeStr
      = .ok sesL)
    (hnocol : ∀ sub ∈ subs,
      (getValuesFromBidsFormattedName sesL "ses".toList).any (fun v =>
        (getValuesFromBidsFormattedName
          (searchSubOrSesLevel fs cfg.base (some sub) none
            "*ses-*".toList) "ses".toList).contains v) = false)
    (hvalid : (dataTypePassed dataType
        && !checkDataTypeIsValid cfg dataType) = false) :
    ∃ created,
      makeSubFolders cfg fs subNames (some sesNamesIn) dataType dateStr
          timeStr = .ok created ∧
      ∀ sub ∈ subs, cfg.base ++ [sub] ∈ created := by
  have hcheck := checkDup_ses_ok fs cfg.base subs sesL hnocol
  obtain ⟨created, hcreated⟩ :
      ∃ created, makeFolderTrees cfg subs sesL dataType = .ok created := by
    unfold makeFolderTrees
    rw [if_neg (by rw [hvalid]; exact Bool.false_ne_true)]
    exact ⟨_, rfl⟩
  refine ⟨created, ?_, ?_⟩
  · simp only [makeSubFolders, hsub, hses, except_map_ok, except_bind_ok,
      hcheck]
    simpa using hcreated
  · intro sub hs
    exact (mem_makeFolderTrees cfg subs sesL dataType created
      (cfg.base ++ [sub]) hcreated).mpr (Or.inl ⟨sub, hs, rfl⟩)

/-- C9 witness: the theorem applied to a filesystem holding `sub-001`
(key 1) while proposing `sub-01` (also key 1) together with a session
list: the call succeeds and the colliding subject folder is created. -/
theorem no_subject_check_with_sessions_witness :
    1 ∈ getValuesFromBidsFormattedName
        (searchSubOrSesLevel sampleFsOneSub ["rawdata".toList] none none
          "*sub-*".toList) "sub".toList ∧
    getValuesFromBidsFormattedName ["sub-01".toList] "sub".toList
      = [1] ∧
    ∃ created,
      makeSubFolders sampleCfgBare sampleFsOneSub ["sub-01".toList]
          (some ["ses-001".toList]) (.str []) [] [] = .ok created ∧
      ∀ sub ∈ ["sub-01".toList], sampleCfgBare.base ++ [sub] ∈ created :=
  ⟨by decide, by decide,
   no_subject_check_with_sessions sampleCfgBare sampleFsOneSub
     ["sub-01".toList] ["ses-001".toList] (.str []) [] []
     ["sub-01".toList] ["ses-001".toList] (by decide) (by decide)
     (by decide) (by decide)⟩

end Datashuttle
